import Mathlib

/-!
Verification development for the votux backend (anonymous ballot protocol).

The definitions below are a shallow embedding of the JavaScript source:

* `src/utils/encryption.js` : the `VoteEncryption` class (AES-256-GCM with a
  per-election scrypt-derived key) is embedded symbolically: the key
  derivation and the authenticated cipher are modelled as free constructors,
  which is the standard ideal (collision-free) model of a key-derivation
  function and of authenticated encryption.  Randomness (the fresh IV, the
  random component of a vote hash) is passed in explicitly.
* `src/models/Ballot.js` : the mongoose ballot schema with its unique
  `voteHash` index; an insert colliding on `voteHash` fails.
* `src/server.js` : the route bodies of `POST /api/vote`,
  `POST /api/elections/:id/tally`, `POST /api/elections/:id/tie-break`,
  `POST /api/elections/:id/proclaim` and `GET /api/elections/:id/results`,
  modelled after the authentication / admin-type gate, as pure transition
  functions on an explicit `ServerState` (the MySQL tables plus the MongoDB
  ballot collection).  SQL identifiers and MongoDB string ids are modelled as
  `Nat` (the JavaScript code converts ids with `toString()`, which is
  injective, and JavaScript object property access coerces numeric keys and
  numeric strings to the same property).

JavaScript `toFixed(2)` percentages are represented exactly as a natural
number of hundredths of a percent (round half up).
-/

namespace Votux

/-! ## Vote cipher (src/utils/encryption.js), symbolic model -/

/-- Plain vote payload built in POST /api/vote:
`{electionId, candidateId, timestamp}` (ids via toString, timestamp ISO). -/
structure VoteData where
  electionId : Nat
  candidateId : Nat
  timestamp : Nat
deriving DecidableEq, Repr

/-- Ideal model of `crypto.scryptSync(env.ENCRYPTION_KEY, electionId, 32)`:
the derived per-election key, a free pairing of the long-term secret and the
electionId salt (so distinct salts give distinct keys). -/
structure SymKey where
  secret : String
  salt : Nat
deriving DecidableEq, Repr

/-- Ideal AES-256-GCM ciphertext: a free constructor over key, IV and
plaintext (symbolic authenticated encryption). -/
inductive Ciphertext
  | mk (key : SymKey) (iv : Nat) (plain : VoteData)
deriving DecidableEq, Repr

/-- Ideal GCM authentication tag over key, IV and plaintext. -/
inductive AuthTag
  | mk (key : SymKey) (iv : Nat) (plain : VoteData)
deriving DecidableEq, Repr

/-- Result record of `VoteEncryption.encryptVote`:
`{encryptedData, iv, authTag}`. -/
structure EncryptedVote where
  encryptedData : Ciphertext
  iv : Nat
  authTag : AuthTag
deriving DecidableEq, Repr

/-- Errors thrown by the encryption utility (wrapped by its catch blocks). -/
inductive CryptoError
  | decryptFailed
deriving DecidableEq, Repr

/-- Embedding of `VoteEncryption.encryptVote(voteData, electionId)`.
The fresh random IV (`crypto.randomBytes(16)`) is an explicit argument. -/
def encryptVote (secret : String) (voteData : VoteData) (electionId : Nat)
    (iv : Nat) : EncryptedVote :=
  let key : SymKey := ⟨secret, electionId⟩
  { encryptedData := Ciphertext.mk key iv voteData
    iv := iv
    authTag := AuthTag.mk key iv voteData }

/-- Embedding of `VoteEncryption.decryptVote(encryptedData, electionId, iv, authTag)`.
GCM decryption succeeds exactly when the ciphertext was produced under the
re-derived key with this IV and the supplied tag authenticates it; otherwise
`decipher.final()` throws, caught and rethrown as a decryption error. -/
def decryptVote (secret : String) (encryptedData : Ciphertext)
    (electionId : Nat) (iv : Nat) (authTag : AuthTag) :
    Except CryptoError VoteData :=
  let key : SymKey := ⟨secret, electionId⟩
  match encryptedData with
  | Ciphertext.mk k i p =>
    if k = key ∧ i = iv ∧ authTag = AuthTag.mk k i p then
      Except.ok p
    else
      Except.error CryptoError.decryptFailed

/-- Ideal model of `VoteEncryption.generateVoteHash(voterId, electionId, timestamp)`:
sha256 over voterId, electionId, timestamp and 8 fresh random bytes, modelled
as a free (collision-free) constructor; the random component is explicit. -/
structure VoteHash where
  voterId : Nat
  electionId : Nat
  timestamp : Nat
  nonce : Nat
deriving DecidableEq, Repr

/-- Embedding of `VoteEncryption.generateVoteHash`. -/
def generateVoteHash (voterId electionId timestamp nonce : Nat) : VoteHash :=
  ⟨voterId, electionId, timestamp, nonce⟩

/-- Validation in src/config/env.js: ENCRYPTION_KEY must be at least 32
characters, checked at startup. -/
def validSecret (secret : String) : Prop := 32 ≤ secret.length

instance : DecidablePred validSecret := fun s =>
  inferInstanceAs (Decidable (32 ≤ s.length))

/-! ## Data model (MySQL tables and the MongoDB ballot collection) -/

/-- Row of the MySQL `voting_records` table (the eligibility ledger). -/
structure VotingRecord where
  voterId : Nat
  electionId : Nat
  hasVoted : Bool
  votedAt : Option Nat
deriving DecidableEq, Repr

/-- MongoDB ballot document (src/models/Ballot.js): electionId (stored as a
string of the numeric id), the encrypted vote (stored JSON-serialized, the
JSON round trip is faithful), and the unique voteHash. -/
structure Ballot where
  electionId : Nat
  encryptedVote : EncryptedVote
  voteHash : VoteHash
deriving DecidableEq, Repr

/-- Row of the MySQL `elections` table (the fields the embedded routes
read: id, title, description, status, institution_id with 0 for NULL). -/
structure Election where
  id : Nat
  title : String
  description : String
  status : String
  institutionId : Nat
deriving DecidableEq, Repr

/-- Row of the MySQL `candidates` table. -/
structure Candidate where
  id : Nat
  electionId : Nat
  name : String
  description : String
  orderPosition : Nat
deriving DecidableEq, Repr

/-- One entry of the tally results list:
`{candidateId, candidateName, votes, percentage}`; the percentage string
produced by `toFixed(2)` is represented as hundredths of a percent. -/
structure ResultRow where
  candidateId : Nat
  candidateName : String
  votes : Nat
  percentage : Nat
deriving DecidableEq, Repr

/-- The `results_json` column content written by the tally route:
`{list, tie, tiedCandidates}`. -/
structure ResultsJson where
  list : List ResultRow
  tie : Bool
  tiedCandidates : List ResultRow
deriving DecidableEq, Repr

/-- Row of the MySQL `election_results` table (election_id is UNIQUE). -/
structure ResultSnapshot where
  electionId : Nat
  totalVotes : Nat
  resultsJson : ResultsJson
  proclaimed : Bool
  proclaimedAt : Option Nat
  winnerId : Option Nat
  winnerName : Option String
deriving DecidableEq, Repr

/-- Payload of an `election_decisions` audit row (payload_json). -/
inductive DecisionPayload
  | secondRound (candidateIds : List Nat) (newElectionId : Nat) (note : Option String)
  | randomDraw (candidateIds : List Nat) (winnerId : Nat) (seed : Nat) (index : Nat) (note : Option String)
  | regulatory (chosenCandidateId : Nat) (note : Option String)
deriving DecidableEq, Repr

/-- Row of the MySQL `election_decisions` table. -/
structure Decision where
  electionId : Nat
  decisionType : String
  payload : DecisionPayload
  decidedBy : Nat
deriving DecidableEq, Repr

/-- Whole persistent state seen by the embedded routes: the MySQL tables
plus the MongoDB ballot collection. -/
structure ServerState where
  votingRecords : List VotingRecord
  ballots : List Ballot
  elections : List Election
  candidates : List Candidate
  electionResults : List ResultSnapshot
  decisions : List Decision
deriving DecidableEq, Repr

/-- The `SELECT * FROM voting_records WHERE voter_id = ? AND election_id = ?`
read in POST /api/vote (the route uses `votingRecords[0]`). -/
def findRecord? (st : ServerState) (voterId electionId : Nat) :
    Option VotingRecord :=
  st.votingRecords.find? (fun r => r.voterId = voterId ∧ r.electionId = electionId)

/-- The election-is-active read in POST /api/vote:
`SELECT * FROM elections WHERE id = ? AND (status = 'ongoing' OR status = 'active')`. -/
def electionActive (st : ServerState) (electionId : Nat) : Bool :=
  st.elections.any (fun el => el.id = electionId ∧
    (el.status = "ongoing" ∨ el.status = "active"))

/-- The candidate-validity read in POST /api/vote:
`SELECT * FROM candidates WHERE id = ? AND election_id = ?`. -/
def candidateValid (st : ServerState) (candidateId electionId : Nat) : Bool :=
  st.candidates.any (fun c => c.id = candidateId ∧ c.electionId = electionId)

/-! ## POST /api/vote (src/server.js, vote submission) -/

/-- Outcome of a vote submission, after the authentication middleware.
`duplicateHashError` is the MongoServerError thrown by `ballot.save()` when
the unique voteHash index is violated; it propagates to the error-handler
middleware as a 500 database error. -/
inductive SubmitOutcome
  | missingFields
  | ineligible
  | alreadyVoted
  | electionNotActive
  | invalidCandidate
  | duplicateHashError
  | ok (receipt : VoteHash)
deriving DecidableEq, Repr

/-- True exactly on the success outcome. -/
def SubmitOutcome.isOk : SubmitOutcome → Bool
  | SubmitOutcome.ok _ => true
  | _ => false

/-- The `ballot.save()` call: the mongoose schema declares `voteHash`
unique, so inserting a colliding hash fails; otherwise the document is
appended to the collection. -/
def saveBallot (st : ServerState) (b : Ballot) : Except Unit ServerState :=
  if st.ballots.any (fun o => o.voteHash = b.voteHash) then
    Except.error ()
  else
    Except.ok { st with ballots := st.ballots ++ [b] }

/-- The mark-voted write in POST /api/vote:
`UPDATE voting_records SET has_voted = TRUE, voted_at = NOW()
 WHERE voter_id = ? AND election_id = ?` — note the update is unconditional
on `has_voted` (no `AND has_voted = FALSE` guard) and never fails. -/
def markVotedUpdate (st : ServerState) (voterId electionId now : Nat) :
    ServerState :=
  { st with votingRecords := st.votingRecords.map (fun r =>
      if r.voterId = voterId ∧ r.electionId = electionId then
        { r with hasVoted := true, votedAt := some now }
      else r) }

/-- The tail of POST /api/vote after the eligibility SELECT has returned an
eligible, not-yet-voted record: the election-active check, candidate check,
encryption, fingerprint, vault append and the mark-voted update, executed
against the current state. -/
def submitAfterCheck (secret : String) (st : ServerState)
    (voterId electionId candidateId now iv nonce : Nat) :
    SubmitOutcome × ServerState :=
  if ¬ electionActive st electionId then
    (SubmitOutcome.electionNotActive, st)
  else if ¬ candidateValid st candidateId electionId then
    (SubmitOutcome.invalidCandidate, st)
  else
    let voteData : VoteData := ⟨electionId, candidateId, now⟩
    let encryptedVote := encryptVote secret voteData electionId iv
    let voteHash := generateVoteHash voterId electionId now nonce
    match saveBallot st ⟨electionId, encryptedVote, voteHash⟩ with
    | Except.error _ => (SubmitOutcome.duplicateHashError, st)
    | Except.ok st1 =>
      (SubmitOutcome.ok voteHash, markVotedUpdate st1 voterId electionId now)

/-- Embedding of the body of POST /api/vote (after authentication).
JavaScript falsiness of the ids (`!electionId || !candidateId`) is `= 0`. -/
def submitVote (secret : String) (st : ServerState)
    (voterId electionId candidateId now iv nonce : Nat) :
    SubmitOutcome × ServerState :=
  if electionId = 0 ∨ candidateId = 0 then
    (SubmitOutcome.missingFields, st)
  else
    match findRecord? st voterId electionId with
    | none => (SubmitOutcome.ineligible, st)
    | some r =>
      if r.hasVoted then
        (SubmitOutcome.alreadyVoted, st)
      else
        submitAfterCheck secret st voterId electionId candidateId now iv nonce

/-- One vote-submission request (explicit randomness). -/
structure VoteCall where
  voterId : Nat
  electionId : Nat
  candidateId : Nat
  now : Nat
  iv : Nat
  nonce : Nat
deriving DecidableEq, Repr

/-- Run one call against a state. -/
def submitCall (secret : String) (st : ServerState) (c : VoteCall) :
    SubmitOutcome × ServerState :=
  submitVote secret st c.voterId c.electionId c.candidateId c.now c.iv c.nonce

/-- Number of calls of a sequential call sequence that target the pair
(voterId, electionId) and append a ballot to the vault (the vault grows). -/
def pairAppends (secret : String) (st : ServerState) (voterId electionId : Nat) :
    List VoteCall → Nat
  | [] => 0
  | c :: cs =>
    (if c.voterId = voterId ∧ c.electionId = electionId ∧
        (submitCall secret st c).2.ballots.length ≠ st.ballots.length
     then 1 else 0)
      + pairAppends secret (submitCall secret st c).2 voterId electionId cs

/-- Modelled from the spec: the submission step 5 variant in which, on a
DuplicateHash collision of the vault append, the fingerprint is regenerated
exactly once (with fresh random material `nonce2`) and the append retried,
returning a PersistenceError only if the retry collides as well.  The code
in src/server.js performs no such retry; this definition exists only to be
compared against `submitVote`. -/
def submitVoteSpecRetry (secret : String) (st : ServerState)
    (voterId electionId candidateId now iv nonce nonce2 : Nat) :
    SubmitOutcome × ServerState :=
  if electionId = 0 ∨ candidateId = 0 then
    (SubmitOutcome.missingFields, st)
  else
    match findRecord? st voterId electionId with
    | none => (SubmitOutcome.ineligible, st)
    | some r =>
      if r.hasVoted then
        (SubmitOutcome.alreadyVoted, st)
      else if ¬ electionActive st electionId then
        (SubmitOutcome.electionNotActive, st)
      else if ¬ candidateValid st candidateId electionId then
        (SubmitOutcome.invalidCandidate, st)
      else
        let voteData : VoteData := ⟨electionId, candidateId, now⟩
        let encryptedVote := encryptVote secret voteData electionId iv
        let voteHash := generateVoteHash voterId electionId now nonce
        match saveBallot st ⟨electionId, encryptedVote, voteHash⟩ with
        | Except.ok st1 =>
          (SubmitOutcome.ok voteHash, markVotedUpdate st1 voterId electionId now)
        | Except.error _ =>
          let voteHash2 := generateVoteHash voterId electionId now nonce2
          match saveBallot st ⟨electionId, encryptedVote, voteHash2⟩ with
          | Except.ok st1 =>
            (SubmitOutcome.ok voteHash2, markVotedUpdate st1 voterId electionId now)
          | Except.error _ => (SubmitOutcome.duplicateHashError, st)

/-! ## POST /api/elections/:id/tally (src/server.js, tally engine) -/

/-- The `Ballot.find the electionId` read: all vault ballots of an election
(MongoDB preserves insertion order for this unindexed scan model). -/
def ballotsFor (st : ServerState) (electionId : Nat) : List Ballot :=
  st.ballots.filter (fun b => b.electionId = electionId)

/-- The ledger count read:
`SELECT COUNT(*) FROM voting_records WHERE election_id = ? AND has_voted = TRUE`. -/
def countVotedLedger (st : ServerState) (electionId : Nat) : Nat :=
  (st.votingRecords.filter (fun r => r.electionId = electionId ∧ r.hasVoted)).length

/-- The decrypt loop of the tally: per-ballot decryption with the per-ballot
catch block; failed ballots are skipped (counted only through the length
difference). Returns the candidateId of each successfully decrypted ballot,
in ballot order. -/
def decryptedCandidates (secret : String) (electionId : Nat)
    (ballots : List Ballot) : List Nat :=
  ballots.filterMap (fun b =>
    match decryptVote secret b.encryptedVote.encryptedData electionId
        b.encryptedVote.iv b.encryptedVote.authTag with
    | Except.ok v => some v.candidateId
    | Except.error _ => none)

/-- Insert into an ascending list (used to model the ascending numeric
iteration order of JavaScript Object.keys over integer-like keys). -/
def insertAscNat (x : Nat) : List Nat → List Nat
  | [] => [x]
  | y :: ys => if y ≤ x then y :: insertAscNat x ys else x :: y :: ys

/-- Iteration order of `Object.keys(voteCount)`: the distinct candidate ids,
ascending (integer-like object keys are enumerated in ascending order). -/
def objectKeysAsc (l : List Nat) : List Nat :=
  l.dedup.foldl (fun acc x => insertAscNat x acc) []

/-- Exact-rational model of `(votes / total * 100).toFixed(2)`:
hundredths of a percent, rounded half up. -/
def pctHundredths (votes total : Nat) : Nat :=
  (votes * 10000 * 2 + total) / (2 * total)

/-- The candidate-name map lookup `candidateMap[candidateId] || defaultName`
built from `SELECT id, name FROM candidates WHERE election_id = ?`. -/
def candidateNameIn (st : ServerState) (electionId candidateId : Nat) : String :=
  match st.candidates.find? (fun c => c.id = candidateId ∧ c.electionId = electionId) with
  | some c => c.name
  | none => "Candidat inconnu"

/-- Stable descending insertion by vote count: models the stable JavaScript
`results.sort((a, b) => b.votes - a.votes)`. -/
def insertDescRow (r : ResultRow) : List ResultRow → List ResultRow
  | [] => [r]
  | x :: xs => if r.votes ≤ x.votes then x :: insertDescRow r xs else r :: x :: xs

/-- Stable sort of the results list, descending by votes. -/
def sortRowsDesc (l : List ResultRow) : List ResultRow :=
  l.foldl (fun acc r => insertDescRow r acc) []

/-- The sorted results list the tally builds: one row per distinct decrypted
candidate id, votes = its count, percentage over the full ballot count
(`ballots.length`, the undecryptable ballots included), sorted by votes
descending. -/
def tallyResults (st : ServerState) (electionId : Nat)
    (decrypted : List Nat) (totalBallots : Nat) : List ResultRow :=
  sortRowsDesc ((objectKeysAsc decrypted).map (fun cid =>
    { candidateId := cid
      candidateName := candidateNameIn st electionId cid
      votes := decrypted.count cid
      percentage := pctHundredths (decrypted.count cid) totalBallots }))

/-- Line 2169 of src/server.js: `results.length > 0 ? results[0].votes : 0`. -/
def topVotesOf (results : List ResultRow) : Nat :=
  match results with
  | [] => 0
  | r :: _ => r.votes

/-- Line 2170: `results.filter(r => r.votes === topVotes)`. -/
def tiedOf (results : List ResultRow) : List ResultRow :=
  results.filter (fun r => r.votes = topVotesOf results)

/-- Line 2171: `tiedCandidates.length > 1 && topVotes > 0`. -/
def tieOf (results : List ResultRow) : Bool :=
  (tiedOf results).length > 1 ∧ topVotesOf results > 0

/-- Line 2172: `tie ? null : (results[0] || null)`. -/
def winnerOf (results : List ResultRow) : Option ResultRow :=
  if tieOf results then none else results.head?

/-- The idempotent upsert into `election_results`
(`INSERT ... ON DUPLICATE KEY UPDATE`): updates total_votes, results_json,
winner_id and winner_name of the unique row of the election, or inserts a
fresh row (proclaimed defaults to 0). -/
def upsertResults (st : ServerState) (electionId totalVotes : Nat)
    (rj : ResultsJson) (winnerId : Option Nat) (winnerName : Option String) :
    ServerState :=
  if st.electionResults.any (fun s => s.electionId = electionId) then
    { st with electionResults := st.electionResults.map (fun s =>
        if s.electionId = electionId then
          { s with totalVotes := totalVotes, resultsJson := rj,
                   winnerId := winnerId, winnerName := winnerName }
        else s) }
  else
    { st with electionResults := st.electionResults ++
        [⟨electionId, totalVotes, rj, false, none, winnerId, winnerName⟩] }

/-- Response of the tally route (after the admin gate). -/
inductive TallyResponse
  | consistencyError (mysqlVotes mongoVotes : Nat)
  | ok (totalVotes decryptedVotes failedDecryptions : Nat)
      (results : List ResultRow) (tie : Bool)
      (tiedCandidates : List ResultRow) (winner : Option ResultRow)
deriving DecidableEq, Repr

/-- True exactly on the success response. -/
def TallyResponse.isSuccess : TallyResponse → Bool
  | TallyResponse.ok _ _ _ _ _ _ _ => true
  | _ => false

/-- Embedding of the body of POST /api/elections/:id/tally (after the admin
gate).  `persistOk` models whether the MySQL persistence block (table
creation, upsert, column-migration fallback) succeeds; its failure is caught
and only logged (`console.warn`), so the route responds with the computed
results either way.  On a ledger/vault count mismatch the route stops with a
500 carrying both counts, before any decryption, and writes nothing. -/
def runTally (secret : String) (st : ServerState) (electionId : Nat)
    (persistOk : Bool) : TallyResponse × ServerState :=
  let ballots := ballotsFor st electionId
  let mysqlVoteCount := countVotedLedger st electionId
  let mongoVoteCount := ballots.length
  if mysqlVoteCount ≠ mongoVoteCount then
    (TallyResponse.consistencyError mysqlVoteCount mongoVoteCount, st)
  else
    let decrypted := decryptedCandidates secret electionId ballots
    let results := tallyResults st electionId decrypted ballots.length
    let tie := tieOf results
    let tiedCandidates := tiedOf results
    let winner := winnerOf results
    let st1 :=
      if persistOk then
        upsertResults st electionId ballots.length
          ⟨results, tie, tiedCandidates⟩
          (winner.map (·.candidateId)) (winner.map (·.candidateName))
      else st
    (TallyResponse.ok ballots.length decrypted.length
      (ballots.length - decrypted.length) results tie tiedCandidates winner,
     st1)

/-! ## GET /api/elections/:id/results -/

/-- Response of the results route (modelled after authentication, for a
non-admin reader: the admin institution gate is skipped). -/
inductive ResultsResponse
  | notFound
  | ok (totalVotes : Nat) (results : ResultsJson) (proclaimed : Bool)
      (proclaimedAt : Option Nat) (winner : Option (Nat × Option String))
deriving DecidableEq, Repr

/-- The unique `election_results` row of an election. -/
def findSnapshot? (st : ServerState) (electionId : Nat) :
    Option ResultSnapshot :=
  st.electionResults.find? (fun s => s.electionId = electionId)

/-- Embedding of the body of GET /api/elections/:id/results: 404 when no row
exists; the winner object is null when winner_id is NULL or 0 (JavaScript
falsiness of `rows[0].winner_id`). -/
def getResults (st : ServerState) (electionId : Nat) : ResultsResponse :=
  match findSnapshot? st electionId with
  | none => ResultsResponse.notFound
  | some s =>
    ResultsResponse.ok s.totalVotes s.resultsJson s.proclaimed s.proclaimedAt
      (match s.winnerId with
       | some w => if w ≠ 0 then some (w, s.winnerName) else none
       | none => none)

/-! ## POST /api/elections/:id/proclaim -/

/-- Response of the proclamation route (after the admin-type gate). -/
inductive ProclaimResponse
  | accessDenied
  | electionNotFound
  | noResults
  | ok (proclaimed : Bool) (proclaimedAt : Option Nat)
      (winner : Option (Nat × Option String))
deriving DecidableEq, Repr

/-- Embedding of the body of POST /api/elections/:id/proclaim (after the
admin-type gate).  `assertAdminCanAccessElection` requires a truthy admin
institution_id matching the election row; then the route 404s when no
`election_results` row exists, else sets proclaimed = 1 and
proclaimed_at = NOW() on that row and answers from the re-read row. -/
def proclaim (st : ServerState) (electionId adminInstitutionId now : Nat) :
    ProclaimResponse × ServerState :=
  if adminInstitutionId = 0 then
    (ProclaimResponse.accessDenied, st)
  else
    match st.elections.find? (fun el => el.id = electionId) with
    | none => (ProclaimResponse.electionNotFound, st)
    | some el =>
      if el.institutionId ≠ adminInstitutionId then
        (ProclaimResponse.accessDenied, st)
      else
        match findSnapshot? st electionId with
        | none => (ProclaimResponse.noResults, st)
        | some _ =>
          let st1 := { st with electionResults := st.electionResults.map (fun s =>
            if s.electionId = electionId then
              { s with proclaimed := true, proclaimedAt := some now }
            else s) }
          match findSnapshot? st1 electionId with
          | none => (ProclaimResponse.noResults, st1)
          | some after =>
            (ProclaimResponse.ok after.proclaimed after.proclaimedAt
              (match after.winnerId with
               | some w => if w ≠ 0 then some (w, after.winnerName) else none
               | none => none), st1)

/-! ## POST /api/elections/:id/tie-break -/

/-- Response of the tie-break route (after the admin-type gate). -/
inductive TieBreakResponse
  | invalidElectionId
  | invalidAction
  | needTwoCandidates
  | electionNotFound
  | chosenRequired
  | candidateNotFound
  | secondRoundCreated (newElectionId : Nat)
  | drawDone (winnerId : Nat) (winnerName : Option String)
  | regulatoryDone (winnerId : Nat) (winnerName : String)
deriving DecidableEq, Repr

/-- The winner update shared by random_draw and regulatory_decision:
`UPDATE election_results SET winner_id = ?, winner_name = ? WHERE election_id = ?`
(a no-op when no row exists for the election). -/
def setSnapshotWinner (st : ServerState) (electionId : Nat)
    (winnerId : Option Nat) (winnerName : Option String) : ServerState :=
  { st with electionResults := st.electionResults.map (fun s =>
      if s.electionId = electionId then
        { s with winnerId := winnerId, winnerName := winnerName }
      else s) }

/-- Append an `election_decisions` audit row. -/
def appendDecision (st : ServerState) (d : Decision) : ServerState :=
  { st with decisions := st.decisions ++ [d] }

/-- Embedding of the body of POST /api/elections/:id/tie-break (after the
admin-type gate).  Explicit parameters model the route randomness and
auto-increment ids: `seed` and `randIndex` are `crypto.randomBytes(16)` and
`crypto.randomInt(0, candidateIds.length)` of the random_draw branch
(`randIndex` is taken modulo the list length, matching the range of
randomInt), `insertId` the id MySQL assigns to the cloned election and
`freshCandIds` the ids of the copied candidate rows.  The route never reads
the `election_results` snapshot before acting: it validates only the action
name, the arity of candidateIds, and (for regulatory_decision) that the
chosen candidate id is truthy and exists in `candidates` (looked up by id
alone, with no election scoping). -/
def tieBreak (st : ServerState) (electionId : Nat) (action : String)
    (candidateIds : List Nat) (chosenCandidateId : Nat) (note : Option String)
    (adminId seed randIndex insertId : Nat) (freshCandIds : List Nat) :
    TieBreakResponse × ServerState :=
  if electionId = 0 then
    (TieBreakResponse.invalidElectionId, st)
  else if action ≠ "second_round" ∧ action ≠ "random_draw" ∧
      action ≠ "regulatory_decision" then
    (TieBreakResponse.invalidAction, st)
  else if action = "second_round" then
    if candidateIds.length < 2 then
      (TieBreakResponse.needTwoCandidates, st)
    else
      match st.elections.find? (fun el => el.id = electionId) with
      | none => (TieBreakResponse.electionNotFound, st)
      | some orig =>
        let newElection : Election :=
          ⟨insertId, orig.title ++ " - Second tour", orig.description,
           "draft", orig.institutionId⟩
        let toCopy := (st.candidates.filter (fun c =>
          c.electionId = electionId ∧ candidateIds.contains c.id))
        let copied := (toCopy.zip freshCandIds).map (fun p =>
          { p.1 with id := p.2, electionId := insertId })
        let st1 := { st with elections := st.elections ++ [newElection],
                             candidates := st.candidates ++ copied }
        let st2 := appendDecision st1
          ⟨electionId, "second_round",
           DecisionPayload.secondRound candidateIds insertId note, adminId⟩
        (TieBreakResponse.secondRoundCreated insertId, st2)
  else if action = "random_draw" then
    if candidateIds.length < 2 then
      (TieBreakResponse.needTwoCandidates, st)
    else
      let index := randIndex % candidateIds.length
      let winnerId := candidateIds.getD index 0
      let winnerName :=
        (st.candidates.find? (fun c => c.id = winnerId)).map (·.name)
      let st1 := setSnapshotWinner st electionId
        (if winnerId ≠ 0 then some winnerId else none) winnerName
      let st2 := appendDecision st1
        ⟨electionId, "random_draw",
         DecisionPayload.randomDraw candidateIds winnerId seed index note,
         adminId⟩
      (TieBreakResponse.drawDone winnerId winnerName, st2)
  else
    if chosenCandidateId = 0 then
      (TieBreakResponse.chosenRequired, st)
    else
      match st.candidates.find? (fun c => c.id = chosenCandidateId) with
      | none => (TieBreakResponse.candidateNotFound, st)
      | some cand =>
        let st1 := setSnapshotWinner st electionId
          (some chosenCandidateId) (some cand.name)
        let st2 := appendDecision st1
          ⟨electionId, "regulatory_decision",
           DecisionPayload.regulatory chosenCandidateId note, adminId⟩
        (TieBreakResponse.regulatoryDone chosenCandidateId cand.name, st2)

/-! ## Modelled-from-spec comparison definition (percentage denominator) -/

/-- Modelled from the spec: the percentage computation of section 4.5,
`percentage = votes / totalDecrypted * 100` rounded to two decimals, with
the number of successfully decrypted ballots as denominator.  The code in
src/server.js divides by `ballots.length` instead; this definition exists
only to be compared against the code percentages. -/
def percentageSpecHundredths (votes totalDecrypted : Nat) : Nat :=
  (votes * 10000 * 2 + totalDecrypted) / (2 * totalDecrypted)

/-! ## Concrete fixture states used to instantiate the theorems -/

/-- A 32-character encryption secret (passes the env.js length check). -/
def secretC : String := "0123456789abcdef0123456789abcdef"

/-- An active election owned by institution 5. -/
def election1 : Election := ⟨1, "Scrutin", "", "active", 5⟩

/-- Eligible, not-yet-voted voter 1 for election 1, one candidate. -/
def stVote : ServerState :=
  ⟨[⟨1, 1, false, none⟩], [], [election1], [⟨1, 1, "X", "", 1⟩], [], []⟩

/-- Same, but voter 1 has already voted. -/
def stVoted : ServerState :=
  { stVote with votingRecords := [⟨1, 1, true, some 5⟩] }

/-- A well-formed vault ballot of election 1 for candidate `cid`. -/
def mkBallot (cid voter t nonce iv : Nat) : Ballot :=
  ⟨1, encryptVote secretC ⟨1, cid, t⟩ 1 iv, generateVoteHash voter 1 t nonce⟩

/-- Tie fixture: seven voted records, ballots decrypting to counts
A(id 1):3, B(id 2):3, C(id 3):1. -/
def stTallyTie : ServerState :=
  ⟨(List.range 7).map (fun i => ⟨i + 1, 1, true, some 1⟩),
   [mkBallot 1 1 1 1 1, mkBallot 1 2 2 2 2, mkBallot 1 3 3 3 3,
    mkBallot 2 4 4 4 4, mkBallot 2 5 5 5 5, mkBallot 2 6 6 6 6,
    mkBallot 3 7 7 7 7],
   [election1],
   [⟨1, 1, "A", "", 1⟩, ⟨2, 1, "B", "", 2⟩, ⟨3, 1, "C", "", 3⟩],
   [], []⟩

/-- A ballot of election 1 encrypted under the election-2 key: its tally
decryption fails (wrong derived key). -/
def badBallot : Ballot :=
  ⟨1, encryptVote secretC ⟨1, 2, 30⟩ 2 30, generateVoteHash 3 1 30 3⟩

/-- Percentage fixture: three voted records, three ballots of which two
decrypt to candidate X (id 1) and one is undecryptable. -/
def stPct : ServerState :=
  ⟨[⟨1, 1, true, some 1⟩, ⟨2, 1, true, some 1⟩, ⟨3, 1, true, some 1⟩],
   [mkBallot 1 1 10 1 1, mkBallot 1 2 20 2 2, badBallot],
   [election1], [⟨1, 1, "X", "", 1⟩, ⟨2, 1, "Y", "", 2⟩], [], []⟩

/-- Scenario fixture: ballots decrypting to X, X, Y (all decryptable). -/
def stXXY : ServerState :=
  ⟨[⟨1, 1, true, some 1⟩, ⟨2, 1, true, some 1⟩, ⟨3, 1, true, some 1⟩],
   [mkBallot 1 1 10 1 1, mkBallot 1 2 20 2 2, mkBallot 2 3 30 3 3],
   [election1], [⟨1, 1, "X", "", 1⟩, ⟨2, 1, "Y", "", 2⟩], [], []⟩

/-- An untied result snapshot for election 1 (tie = false, a winner set). -/
def snapUntied : ResultSnapshot :=
  ⟨1, 3, ⟨[⟨1, "X", 2, 6667⟩, ⟨2, "Y", 1, 3333⟩], false, [⟨1, "X", 2, 6667⟩]⟩,
   false, none, some 1, some "X"⟩

/-- Tie-break fixture: an untied snapshot, candidates X and Y. -/
def stTie7 : ServerState :=
  ⟨[], [], [election1], [⟨1, 1, "X", "", 1⟩, ⟨2, 1, "Y", "", 2⟩],
   [snapUntied], []⟩

/-- Consistency-mismatch fixture: ledger counts 5 voted, vault holds 4. -/
def stMismatch : ServerState :=
  ⟨(List.range 5).map (fun i => ⟨i + 1, 1, true, some 1⟩),
   [mkBallot 1 1 1 1 1, mkBallot 1 2 2 2 2, mkBallot 1 3 3 3 3,
    mkBallot 1 4 4 4 4],
   [election1], [⟨1, 1, "X", "", 1⟩], [], []⟩

/-- Duplicate-hash fixture: the vault already holds a ballot whose hash is
exactly the fingerprint the next submission of voter 1 will generate. -/
def stDup : ServerState :=
  { stVote with ballots := [mkBallot 1 1 10 1 100] }

/-- Proclamation fixture: election 1 with an existing untied snapshot. -/
def stProc : ServerState :=
  ⟨[], [], [election1], [], [snapUntied], []⟩

/-! ## Helper lemmas -/

/-- find? commutes with a map that does not change the predicate value. -/
theorem find?_map_pres {α : Type} (p : α → Bool) (f : α → α)
    (hf : ∀ a, p (f a) = p a) (l : List α) :
    (l.map f).find? p = (l.find? p).map f := by
  induction l with
  | nil => rfl
  | cons a l ih =>
    by_cases hpa : p a = true
    · simp [List.find?_cons_of_pos, hpa, hf]
    · have hfa : p (f a) = false := by
        rw [hf]; exact Bool.eq_false_iff.mpr hpa
      rw [List.map_cons, List.find?_cons_of_neg _ (by simp [hfa]),
        List.find?_cons_of_neg _ (by simp_all), ih]

/-! ## C4 : vote cipher round trip -/

/-- C4. Vote cipher round trip: with a configured secret of sufficient
size, decrypting an encrypted payload with the same electionId, IV and
authentication tag returns the payload, and decryption with a wrong tag,
wrong IV, or different electionId (which re-derives a different
per-election key) fails with a crypto error instead of returning a
payload. -/
theorem vote_cipher_roundtrip (secret : String) (hsec : validSecret secret)
    (vd : VoteData) (e iv : Nat) :
    decryptVote secret (encryptVote secret vd e iv).encryptedData e
      (encryptVote secret vd e iv).iv (encryptVote secret vd e iv).authTag =
      Except.ok vd
    ∧ (∀ tag, tag ≠ (encryptVote secret vd e iv).authTag →
        decryptVote secret (encryptVote secret vd e iv).encryptedData e
          (encryptVote secret vd e iv).iv tag =
          Except.error CryptoError.decryptFailed)
    ∧ (∀ iv2, iv2 ≠ iv →
        decryptVote secret (encryptVote secret vd e iv).encryptedData e iv2
          (encryptVote secret vd e iv).authTag =
          Except.error CryptoError.decryptFailed)
    ∧ (∀ e2, e2 ≠ e →
        decryptVote secret (encryptVote secret vd e iv).encryptedData e2
          (encryptVote secret vd e iv).iv (encryptVote secret vd e iv).authTag =
          Except.error CryptoError.decryptFailed) := by
  refine ⟨?_, ?_, ?_, ?_⟩
  · simp [encryptVote, decryptVote]
  · intro tag htag
    simp only [encryptVote] at htag
    simp [encryptVote, decryptVote, htag]
  · intro iv2 hiv
    simp [encryptVote, decryptVote, Ne.symm hiv]
  · intro e2 he
    simp [encryptVote, decryptVote, SymKey.mk.injEq, Ne.symm he]

/-- C4 witness: the round-trip theorem applied at a concrete secret,
payload, election and IV. -/
theorem vote_cipher_roundtrip_witness :
    validSecret secretC
    ∧ decryptVote secretC (encryptVote secretC ⟨1, 2, 3⟩ 1 7).encryptedData 1
        (encryptVote secretC ⟨1, 2, 3⟩ 1 7).iv
        (encryptVote secretC ⟨1, 2, 3⟩ 1 7).authTag = Except.ok ⟨1, 2, 3⟩ :=
  ⟨by decide, (vote_cipher_roundtrip secretC (by decide) ⟨1, 2, 3⟩ 1 7).1⟩

/-! ## C2 : tally consistency guard -/

/-- C2. Consistency guard: when the ledger count of has_voted records
differs from the vault ballot count of the election, the tally stops with a
consistency error exposing both counts and leaves the state (in particular
the result store) unchanged; the decrypt loop and the snapshot upsert are
in the untaken branch, so no ballot is decrypted and no snapshot row is
written or updated. -/
theorem tally_consistency_guard (secret : String) (st : ServerState)
    (e : Nat) (persistOk : Bool)
    (h : countVotedLedger st e ≠ (ballotsFor st e).length) :
    runTally secret st e persistOk =
      (TallyResponse.consistencyError (countVotedLedger st e)
        (ballotsFor st e).length, st) := by
  simp only [runTally]
  rw [if_pos h]

/-- C2 witness: ledger reports 5 voted, vault holds 4 ballots; the guard
theorem applies and the error carries exactly 5 and 4. -/
theorem tally_consistency_guard_witness :
    runTally secretC stMismatch 1 true =
      (TallyResponse.consistencyError (countVotedLedger stMismatch 1)
        ((ballotsFor stMismatch 1).length), stMismatch)
    ∧ countVotedLedger stMismatch 1 = 5
    ∧ (ballotsFor stMismatch 1).length = 4 :=
  ⟨tally_consistency_guard secretC stMismatch 1 true (by decide),
   by decide, by decide⟩

/-! ## C5 : markVoted is not an atomic check-and-set -/

/-- C5. The mark-voted write is an unconditional UPDATE (no
has_voted = FALSE guard), so it is a separate read-then-write and not a
compare-and-set: in the interleaving where both of two concurrent
submissions for voter 1 in election 1 pass the eligibility read before
either writes, both the first and the second submission succeed and two
ballots are appended to the vault for the pair, refuting the claimed
atomicity; the unconditional update also never fails on an
already-voted record. -/
theorem markVoted_not_atomic_interleaving :
    (submitAfterCheck secretC stVote 1 1 1 10 100 1).1.isOk = true
    ∧ (submitAfterCheck secretC
        (submitAfterCheck secretC stVote 1 1 1 10 100 1).2
        1 1 1 11 101 2).1.isOk = true
    ∧ (ballotsFor (submitAfterCheck secretC
        (submitAfterCheck secretC stVote 1 1 1 10 100 1).2
        1 1 1 11 101 2).2 1).length = 2
    ∧ findRecord? stVote 1 1 = some ⟨1, 1, false, none⟩
    ∧ markVotedUpdate stVoted 1 1 9 =
        { stVoted with votingRecords := [⟨1, 1, true, some 9⟩] } := by
  refine ⟨by decide, by decide, by decide, by decide, by decide⟩

/-! ## C1 machinery : sequential one-vote invariant -/

/-- The eligibility read ignores the ballot collection. -/
theorem findRecord?_set_ballots (st : ServerState) (bs : List Ballot)
    (v e : Nat) :
    findRecord? { st with ballots := bs } v e = findRecord? st v e := rfl

/-- Effect of the unconditional mark-voted UPDATE on the eligibility read:
the found record (if any) is the original one, with has_voted set when it
belongs to the updated pair. -/
theorem findRecord?_markVotedUpdate (st : ServerState) (v e v2 e2 now : Nat) :
    findRecord? (markVotedUpdate st v2 e2 now) v e =
      (findRecord? st v e).map (fun r =>
        if r.voterId = v2 ∧ r.electionId = e2 then
          { r with hasVoted := true, votedAt := some now } else r) := by
  unfold findRecord? markVotedUpdate
  exact find?_map_pres _ _ (fun a => by split <;> rfl) _

/-- A found eligibility record carries the searched pair. -/
theorem findRecord?_props (st : ServerState) (v e : Nat) (r : VotingRecord)
    (h : findRecord? st v e = some r) : r.voterId = v ∧ r.electionId = e := by
  have := List.find?_some h
  simpa using this

/-- Case shape of one vote submission: either the state is untouched (all
failure outcomes), or the submission succeeded, in which case the record of
the pair existed with has_voted = false, exactly one ballot was appended
and the pair was marked voted. -/
theorem submitCall_shape (secret : String) (st : ServerState) (c : VoteCall) :
    (submitCall secret st c).2 = st ∨
    (∃ b : Ballot, ∃ r : VotingRecord,
      (submitCall secret st c).1 = SubmitOutcome.ok b.voteHash ∧
      (submitCall secret st c).2 =
        markVotedUpdate { st with ballots := st.ballots ++ [b] }
          c.voterId c.electionId c.now ∧
      findRecord? st c.voterId c.electionId = some r ∧
      r.hasVoted = false) := by
  unfold submitCall submitVote
  split
  · left; rfl
  · split
    · left; rfl
    · rename_i r hr
      split
      · left; rfl
      · rename_i hnv
        unfold submitAfterCheck
        split
        · left; rfl
        · split
          · left; rfl
          · dsimp only
            rcases hsave : saveBallot st
                ⟨c.electionId,
                 encryptVote secret
                   ⟨c.electionId, c.candidateId, c.now⟩ c.electionId c.iv,
                 generateVoteHash c.voterId c.electionId c.now c.nonce⟩
              with u | st1
            · left; rfl
            · unfold saveBallot at hsave
              split at hsave
              · exact absurd hsave (by simp)
              · right
                injection hsave with hst1
                subst hst1
                exact ⟨_, r, rfl, rfl, hr, by simpa using hnv⟩

/-- Once the pair's record reads has_voted (or is absent), any further vote
submission keeps it so: the ledger update only ever sets has_voted to
true. -/
theorem submit_preserves_voted (secret : String) (st : ServerState)
    (c : VoteCall) (v e : Nat)
    (hP : ∀ r, findRecord? st v e = some r → r.hasVoted = true) :
    ∀ r, findRecord? (submitCall secret st c).2 v e = some r →
      r.hasVoted = true := by
  rcases submitCall_shape secret st c with h | ⟨b, r0, _, h2, _, _⟩
  · rw [h]; exact hP
  · rw [h2]
    intro r hr
    rw [findRecord?_markVotedUpdate, findRecord?_set_ballots] at hr
    cases hfind : findRecord? st v e with
    | none => rw [hfind] at hr; simp at hr
    | some r1 =>
      rw [hfind] at hr
      simp only [Option.map_some', Option.some.injEq] at hr
      have hv1 := hP r1 hfind
      by_cases hc : r1.voterId = c.voterId ∧ r1.electionId = c.electionId
      · rw [if_pos hc] at hr; rw [← hr]
      · rw [if_neg hc] at hr; rw [← hr]; exact hv1

/-- Under the voted invariant of a pair, a submission for that pair leaves
the vault exactly as it was (AlreadyVoted is returned before any write). -/
theorem submit_no_second_append (secret : String) (st : ServerState)
    (c : VoteCall) (v e : Nat)
    (hP : ∀ r, findRecord? st v e = some r → r.hasVoted = true)
    (hv : c.voterId = v) (he : c.electionId = e) :
    (submitCall secret st c).2.ballots = st.ballots := by
  rcases submitCall_shape secret st c with h | ⟨b, r0, _, _, h3, h4⟩
  · rw [h]
  · exfalso
    rw [hv, he] at h3
    rw [hP r0 h3] at h4
    simp at h4

/-- A submission that grows the vault establishes the voted invariant for
its pair. -/
theorem submit_append_establishes (secret : String) (st : ServerState)
    (c : VoteCall) (v e : Nat) (hv : c.voterId = v) (he : c.electionId = e)
    (hg : (submitCall secret st c).2.ballots.length ≠ st.ballots.length) :
    ∀ r, findRecord? (submitCall secret st c).2 v e = some r →
      r.hasVoted = true := by
  subst hv he
  rcases submitCall_shape secret st c with h | ⟨b, r0, _, h2, h3, _⟩
  · rw [h] at hg; exact absurd rfl hg
  · rw [h2]
    intro r hr
    rw [findRecord?_markVotedUpdate, findRecord?_set_ballots] at hr
    rw [h3] at hr
    simp only [Option.map_some', Option.some.injEq] at hr
    rw [if_pos (findRecord?_props st _ _ r0 h3)] at hr
    rw [← hr]

/-- Under the voted invariant of a pair, no call of any further sequential
call sequence appends a ballot for that pair. -/
theorem pairAppends_zero (secret : String) (v e : Nat) (cs : List VoteCall) :
    ∀ st : ServerState,
      (∀ r, findRecord? st v e = some r → r.hasVoted = true) →
      pairAppends secret st v e cs = 0 := by
  induction cs with
  | nil => intro st _; rfl
  | cons c cs ih =>
    intro st hP
    have hnext := submit_preserves_voted secret st c v e hP
    simp only [pairAppends]
    rw [ih _ hnext, Nat.add_zero]
    by_cases hc : c.voterId = v ∧ c.electionId = e
    · have heq := submit_no_second_append secret st c v e hP hc.1 hc.2
      simp [heq, hc]
    · rw [if_neg (fun h => hc ⟨h.1, h.2.1⟩)]

/-- In any sequential sequence of vote submissions, at most one call for a
given (voter, election) pair ever appends a ballot to the vault. -/
theorem pairAppends_le_one (secret : String) (v e : Nat) (cs : List VoteCall) :
    ∀ st : ServerState, pairAppends secret st v e cs ≤ 1 := by
  induction cs with
  | nil => intro st; exact Nat.zero_le 1
  | cons c cs ih =>
    intro st
    by_cases hc : c.voterId = v ∧ c.electionId = e ∧
        (submitCall secret st c).2.ballots.length ≠ st.ballots.length
    · have hP := submit_append_establishes secret st c v e hc.1 hc.2.1 hc.2.2
      simp only [pairAppends, if_pos hc,
        pairAppends_zero secret v e cs _ hP]
      simp
    · simp only [pairAppends, if_neg hc, Nat.zero_add]
      exact ih (submitCall secret st c).2

/-! ## C1 : one vote per (voter, election) -/

/-- C1. One vote per pair: once the eligibility record of a pair has
has_voted = true (as after a successful submission), a subsequent
submission for the pair answers AlreadyVoted with the state untouched — in
particular before any encryption or vault write, both of which sit in the
untaken branch — and over any sequential sequence of submissions at most
one call per pair appends a ballot to the vault. -/
theorem one_vote_per_pair (secret : String) (st : ServerState)
    (v e cid now iv nonce : Nat) (he : e ≠ 0) (hc : cid ≠ 0)
    (r : VotingRecord) (hr : findRecord? st v e = some r)
    (hv : r.hasVoted = true) :
    submitVote secret st v e cid now iv nonce =
      (SubmitOutcome.alreadyVoted, st)
    ∧ ∀ (st2 : ServerState) (calls : List VoteCall),
        pairAppends secret st2 v e calls ≤ 1 := by
  constructor
  · simp [submitVote, hr, hv, he, hc]
  · intro st2 calls
    exact pairAppends_le_one secret v e calls st2

/-- C1 witness: the pair (voter 1, election 1) has already voted in
stVoted; a new submission is refused as AlreadyVoted with the state
untouched, and the append bound holds for a sample call list. -/
theorem one_vote_per_pair_witness :
    submitVote secretC stVoted 1 1 1 10 100 1 =
      (SubmitOutcome.alreadyVoted, stVoted)
    ∧ pairAppends secretC stVoted 1 1
        [⟨1, 1, 1, 10, 100, 1⟩, ⟨1, 1, 1, 11, 101, 2⟩] ≤ 1 := by
  have h := one_vote_per_pair secretC stVoted 1 1 1 10 100 1
    (by decide) (by decide) ⟨1, 1, true, some 5⟩ (by decide) (by decide)
  exact ⟨h.1, h.2 stVoted [⟨1, 1, 1, 10, 100, 1⟩, ⟨1, 1, 1, 11, 101, 2⟩]⟩

/-! ## Sorting and aggregation lemmas for the tally -/

/-- Membership through a descending insertion. -/
theorem mem_insertDescRow (r a : ResultRow) (l : List ResultRow) :
    a ∈ insertDescRow r l ↔ a = r ∨ a ∈ l := by
  induction l with
  | nil => simp [insertDescRow]
  | cons x xs ih =>
    simp only [insertDescRow]
    split
    · simp only [List.mem_cons, ih]
      tauto
    · simp

/-- Descending insertion preserves the sortedness invariant. -/
theorem pairwise_insertDescRow (r : ResultRow) (l : List ResultRow)
    (h : List.Pairwise (fun a b => b.votes ≤ a.votes) l) :
    List.Pairwise (fun a b => b.votes ≤ a.votes) (insertDescRow r l) := by
  induction l with
  | nil => simp [insertDescRow]
  | cons x xs ih =>
    rcases List.pairwise_cons.mp h with ⟨hx, hxs⟩
    simp only [insertDescRow]
    split
    · rename_i hle
      refine List.pairwise_cons.mpr ⟨?_, ih hxs⟩
      intro b hb
      rcases (mem_insertDescRow r b xs).mp hb with rfl | hbxs
      · exact hle
      · exact hx b hbxs
    · rename_i hgt
      have hxr : x.votes ≤ r.votes := Nat.le_of_lt (Nat.lt_of_not_le hgt)
      refine List.pairwise_cons.mpr ⟨?_, h⟩
      intro b hb
      rcases List.mem_cons.mp hb with rfl | hbxs
      · exact hxr
      · exact Nat.le_trans (hx b hbxs) hxr

/-- Sortedness of the accumulated insertion fold. -/
theorem pairwise_foldl_insert (l : List ResultRow) :
    ∀ acc, List.Pairwise (fun a b => b.votes ≤ a.votes) acc →
      List.Pairwise (fun a b => b.votes ≤ a.votes)
        (l.foldl (fun acc r => insertDescRow r acc) acc) := by
  induction l with
  | nil => intro acc h; exact h
  | cons x xs ih => intro acc h; exact ih _ (pairwise_insertDescRow x acc h)

/-- The sorted tally results are descending by votes. -/
theorem pairwise_sortRowsDesc (l : List ResultRow) :
    List.Pairwise (fun a b => b.votes ≤ a.votes) (sortRowsDesc l) :=
  pairwise_foldl_insert l [] List.Pairwise.nil

/-- Membership through the accumulated insertion fold. -/
theorem mem_foldl_insert (l : List ResultRow) :
    ∀ (acc : List ResultRow) (a : ResultRow),
      a ∈ l.foldl (fun acc r => insertDescRow r acc) acc ↔ a ∈ l ∨ a ∈ acc := by
  induction l with
  | nil => simp
  | cons x xs ih =>
    intro acc a
    simp only [List.foldl_cons, ih, mem_insertDescRow, List.mem_cons]
    tauto

/-- The sort is a reordering: membership is preserved. -/
theorem mem_sortRowsDesc (l : List ResultRow) (a : ResultRow) :
    a ∈ sortRowsDesc l ↔ a ∈ l := by
  unfold sortRowsDesc
  rw [mem_foldl_insert]
  simp

/-- In a descending list, every vote count is at most the head count. -/
theorem le_topVotes_of_mem (l : List ResultRow)
    (hs : List.Pairwise (fun a b => b.votes ≤ a.votes) l)
    (r : ResultRow) (hr : r ∈ l) : r.votes ≤ topVotesOf l := by
  cases l with
  | nil => cases hr
  | cons x xs =>
    rcases List.mem_cons.mp hr with rfl | hmem
    · exact Nat.le_refl _
    · exact (List.pairwise_cons.mp hs).1 r hmem

/-- In a descending list, the head count is the maximum count (0 when the
list is empty). -/
theorem topVotes_eq_max (l : List ResultRow)
    (hs : List.Pairwise (fun a b => b.votes ≤ a.votes) l) :
    topVotesOf l = (l.map (fun r => r.votes)).foldr max 0 := by
  induction l with
  | nil => rfl
  | cons x xs ih =>
    rcases List.pairwise_cons.mp hs with ⟨hx, hxs⟩
    simp only [List.map_cons, List.foldr_cons]
    rw [← ih hxs]
    cases xs with
    | nil => simp [topVotesOf]
    | cons y ys =>
      have hyx : y.votes ≤ x.votes := hx y (by simp)
      simp only [topVotesOf]
      exact (Nat.max_eq_left hyx).symm

/-- Every row of the tally results carries as votes the count of its
candidate among the decrypted ballots, and as percentage that count over
the supplied total. -/
theorem tallyResults_mem (st : ServerState) (e : Nat) (decrypted : List Nat)
    (total : Nat) (r : ResultRow) (hr : r ∈ tallyResults st e decrypted total) :
    r.votes = decrypted.count r.candidateId ∧
    r.percentage = pctHundredths r.votes total := by
  unfold tallyResults at hr
  rw [mem_sortRowsDesc] at hr
  rcases List.mem_map.mp hr with ⟨cid, _, rfl⟩
  exact ⟨rfl, rfl⟩

/-! ## C3 : tie rule -/

/-- C3. Tie rule of the tally: topVotes is the head of the sorted results
and equals the maximum per-candidate count (0 with no rows), tiedCandidates
is exactly the rows whose count equals topVotes, tie holds iff more than
one row is tied and topVotes is positive, the winner is null under a tie
and the top row otherwise, and every row's votes is the count of its
candidate among the decrypted ballots. -/
theorem tally_tie_rule (secret : String) (st : ServerState) (e : Nat)
    (persistOk : Bool) (tv dv fd : Nat) (results : List ResultRow)
    (tie : Bool) (tied : List ResultRow) (winner : Option ResultRow)
    (st' : ServerState)
    (h : runTally secret st e persistOk =
      (TallyResponse.ok tv dv fd results tie tied winner, st')) :
    topVotesOf results = (results.map (fun r => r.votes)).foldr max 0
    ∧ (results = [] → topVotesOf results = 0)
    ∧ tied = results.filter (fun r => r.votes = topVotesOf results)
    ∧ (tie = true ↔ 1 < tied.length ∧ 0 < topVotesOf results)
    ∧ (tie = true → winner = none)
    ∧ (tie = false → winner = results.head?)
    ∧ (∀ r ∈ results,
        r.votes =
          (decryptedCandidates secret e (ballotsFor st e)).count r.candidateId) := by
  simp only [runTally] at h
  by_cases hcons : countVotedLedger st e = (ballotsFor st e).length
  case neg =>
    rw [if_pos hcons] at h
    simp at h
  case pos =>
    rw [if_neg (fun hne => hne hcons)] at h
    simp only [Prod.mk.injEq, TallyResponse.ok.injEq] at h
    obtain ⟨⟨htv, hdv, hfd, hres, htie, htied, hwin⟩, hst⟩ := h
    subst hres htie htied hwin
    have hsorted := pairwise_sortRowsDesc
      ((objectKeysAsc (decryptedCandidates secret e (ballotsFor st e))).map
        (fun cid =>
          { candidateId := cid
            candidateName := candidateNameIn st e cid
            votes := (decryptedCandidates secret e (ballotsFor st e)).count cid
            percentage := pctHundredths
              ((decryptedCandidates secret e (ballotsFor st e)).count cid)
              (ballotsFor st e).length }))
    refine ⟨?_, ?_, rfl, ?_, ?_, ?_, ?_⟩
    · exact topVotes_eq_max _ hsorted
    · intro hempty; rw [hempty]; rfl
    · simp [tieOf]
    · intro htrue
      simp [winnerOf, htrue]
    · intro hfalse
      simp [winnerOf, hfalse]
    · intro r hr
      exact (tallyResults_mem st e _ _ r hr).1

/-- C3 witness: the tie-rule theorem applied to the concrete fixture whose
ballots decrypt to counts A:3, B:3, C:1; the discharged hypothesis
exhibits tie = true, tiedCandidates = [A, B] and winner = null. -/
theorem tally_tie_rule_witness :
    topVotesOf
        [⟨1, "A", 3, 4286⟩, ⟨2, "B", 3, 4286⟩, ⟨3, "C", 1, 1429⟩] =
      (([⟨1, "A", 3, 4286⟩, ⟨2, "B", 3, 4286⟩,
         ⟨3, "C", 1, 1429⟩] : List ResultRow).map (fun r => r.votes)).foldr max 0
    ∧ (([⟨1, "A", 3, 4286⟩, ⟨2, "B", 3, 4286⟩,
         ⟨3, "C", 1, 1429⟩] : List ResultRow) = [] →
        topVotesOf [⟨1, "A", 3, 4286⟩, ⟨2, "B", 3, 4286⟩, ⟨3, "C", 1, 1429⟩] = 0)
    ∧ ([⟨1, "A", 3, 4286⟩, ⟨2, "B", 3, 4286⟩] : List ResultRow) =
        ([⟨1, "A", 3, 4286⟩, ⟨2, "B", 3, 4286⟩,
          ⟨3, "C", 1, 1429⟩] : List ResultRow).filter (fun r =>
            r.votes = topVotesOf
              [⟨1, "A", 3, 4286⟩, ⟨2, "B", 3, 4286⟩, ⟨3, "C", 1, 1429⟩])
    ∧ (true = true ↔
        1 < ([⟨1, "A", 3, 4286⟩, ⟨2, "B", 3, 4286⟩] : List ResultRow).length ∧
        0 < topVotesOf [⟨1, "A", 3, 4286⟩, ⟨2, "B", 3, 4286⟩, ⟨3, "C", 1, 1429⟩])
    ∧ (true = true → (none : Option ResultRow) = none)
    ∧ (true = false →
        (none : Option ResultRow) =
          ([⟨1, "A", 3, 4286⟩, ⟨2, "B", 3, 4286⟩,
            ⟨3, "C", 1, 1429⟩] : List ResultRow).head?)
    ∧ (∀ r ∈ ([⟨1, "A", 3, 4286⟩, ⟨2, "B", 3, 4286⟩,
          ⟨3, "C", 1, 1429⟩] : List ResultRow),
        r.votes =
          (decryptedCandidates secretC 1 (ballotsFor stTallyTie 1)).count
            r.candidateId) :=
  tally_tie_rule secretC stTallyTie 1 true 7 7 0
    [⟨1, "A", 3, 4286⟩, ⟨2, "B", 3, 4286⟩, ⟨3, "C", 1, 1429⟩] true
    [⟨1, "A", 3, 4286⟩, ⟨2, "B", 3, 4286⟩] none
    (runTally secretC stTallyTie 1 true).2 (by decide)

/-! ## C6 : percentage computation -/

/-- C6 counterexample: with three vault ballots of which one is
undecryptable and two decrypt to candidate X, the tally reports X with
percentage 66.67 (denominator 3 = all ballots), while the claimed formula
votes / totalDecrypted * 100 gives 100.00 (denominator 2): the claim is
false on the code. -/
theorem tally_percentage_spec_counterexample :
    (runTally secretC stPct 1 true).1 =
      TallyResponse.ok 3 2 1 [⟨1, "X", 2, 6667⟩] false [⟨1, "X", 2, 6667⟩]
        (some ⟨1, "X", 2, 6667⟩)
    ∧ percentageSpecHundredths 2 2 = 10000
    ∧ (6667 : Nat) ≠ 10000 :=
  ⟨by decide, by decide, by decide⟩

/-- C6 amended. Percentage computation as coded: every row's percentage is
its votes over the total number of vault ballots of the election
(`ballots.length`, the response totalVotes, undecryptable ballots
included), times 100, rounded to two decimals. -/
theorem tally_percentage_denominator (secret : String) (st : ServerState)
    (e : Nat) (persistOk : Bool) (tv dv fd : Nat) (results : List ResultRow)
    (tie : Bool) (tied : List ResultRow) (winner : Option ResultRow)
    (st' : ServerState)
    (h : runTally secret st e persistOk =
      (TallyResponse.ok tv dv fd results tie tied winner, st')) :
    tv = (ballotsFor st e).length
    ∧ ∀ r ∈ results, r.percentage = pctHundredths r.votes tv := by
  simp only [runTally] at h
  by_cases hcons : countVotedLedger st e = (ballotsFor st e).length
  case neg =>
    rw [if_pos hcons] at h
    simp at h
  case pos =>
    rw [if_neg (fun hne => hne hcons)] at h
    simp only [Prod.mk.injEq, TallyResponse.ok.injEq] at h
    obtain ⟨⟨htv, hdv, hfd, hres, htie, htied, hwin⟩, hst⟩ := h
    subst htv hres
    exact ⟨rfl, fun r hr => (tallyResults_mem st e _ _ r hr).2⟩

/-- C6 amended witness: the denominator theorem applied to the X, X, Y
scenario: results [(X, 2 votes, 66.67), (Y, 1 vote, 33.33)]. -/
theorem tally_percentage_denominator_witness :
    (3 : Nat) = (ballotsFor stXXY 1).length
    ∧ ∀ r ∈ ([⟨1, "X", 2, 6667⟩, ⟨2, "Y", 1, 3333⟩] : List ResultRow),
        r.percentage = pctHundredths r.votes 3 :=
  tally_percentage_denominator secretC stXXY 1 true 3 3 0
    [⟨1, "X", 2, 6667⟩, ⟨2, "Y", 1, 3333⟩] false [⟨1, "X", 2, 6667⟩]
    (some ⟨1, "X", 2, 6667⟩) (runTally secretC stXXY 1 true).2 (by decide)

/-! ## C7 : tie-break validation -/

/-- C7 counterexample: the fixture snapshot of election 1 has tie = false
and its tied set is the single candidate 1, yet a regulatory_decision
naming candidate 2 — outside the tied set, against an untied snapshot —
succeeds, updates the snapshot winner to 2 and appends a Decision row: the
request mutates state, so the claimed precondition validation is false on
the code. -/
theorem tieBreak_precondition_counterexample :
    (findSnapshot? stTie7 1).map (fun s => s.resultsJson.tie) = some false
    ∧ (findSnapshot? stTie7 1).map
        (fun s => s.resultsJson.tiedCandidates.map (fun r => r.candidateId)) =
      some [1]
    ∧ (tieBreak stTie7 1 "regulatory_decision" [] 2 none 9 0 0 0 []).1 =
        TieBreakResponse.regulatoryDone 2 "Y"
    ∧ (tieBreak stTie7 1 "regulatory_decision" [] 2 none 9 0 0 0 []).2 ≠ stTie7
    ∧ (tieBreak stTie7 1 "regulatory_decision" [] 2 none 9 0 0 0
        []).2.decisions.length = 1
    ∧ (findSnapshot? (tieBreak stTie7 1 "regulatory_decision" [] 2 none 9 0 0 0
        []).2 1).map (fun s => s.winnerId) = some (some 2) :=
  ⟨by decide, by decide, by decide, by decide, by decide, by decide⟩

/-- C7 amended. The tie-break route validates only the action name, the
arity of candidateIds, and for regulatory_decision that the chosen
candidate id is truthy and exists in the candidates table (by id alone):
it never reads the result snapshot, so for any state — tied or not — a
regulatory_decision naming any existing candidate updates the snapshot
winner and appends a Decision row. -/
theorem tieBreak_validation_only (st : ServerState)
    (e chosen adminId seed randIndex insertId : Nat)
    (cids freshIds : List Nat) (note : Option String)
    (he : e ≠ 0) (hch : chosen ≠ 0) (cand : Candidate)
    (hc : st.candidates.find? (fun c => c.id = chosen) = some cand) :
    tieBreak st e "regulatory_decision" cids chosen note adminId seed
        randIndex insertId freshIds =
      (TieBreakResponse.regulatoryDone chosen cand.name,
       appendDecision (setSnapshotWinner st e (some chosen) (some cand.name))
         ⟨e, "regulatory_decision", DecisionPayload.regulatory chosen note,
          adminId⟩) := by
  have h1 : ("regulatory_decision" : String) ≠ "second_round" := by decide
  have h2 : ("regulatory_decision" : String) ≠ "random_draw" := by decide
  simp [tieBreak, he, hch, hc, h1, h2]

/-- C7 amended witness: the validation-only theorem applied at the untied
fixture with chosen candidate 2. -/
theorem tieBreak_validation_only_witness :
    tieBreak stTie7 1 "regulatory_decision" [] 2 none 9 0 0 0 [] =
      (TieBreakResponse.regulatoryDone 2 "Y",
       appendDecision (setSnapshotWinner stTie7 1 (some 2) (some "Y"))
         ⟨1, "regulatory_decision", DecisionPayload.regulatory 2 none, 9⟩) :=
  tieBreak_validation_only stTie7 1 2 9 0 0 0 [] [] none (by decide)
    (by decide) ⟨2, 1, "Y", "", 2⟩ (by decide)

/-! ## C8 : duplicate-hash handling -/

/-- C8 counterexample: the vault already holds a ballot carrying exactly
the fingerprint the submission will generate; the code fails with the
propagated duplicate-key error and appends nothing, while the claimed
regenerate-once-and-retry behaviour (submitVoteSpecRetry, with a fresh
second nonce) would succeed: the claim is false on the code. -/
theorem duplicate_hash_retry_counterexample :
    (stDup.ballots.any fun o => o.voteHash = generateVoteHash 1 1 10 1) = true
    ∧ submitVote secretC stDup 1 1 1 10 100 1 =
        (SubmitOutcome.duplicateHashError, stDup)
    ∧ (submitVoteSpecRetry secretC stDup 1 1 1 10 100 1 2).1 =
        SubmitOutcome.ok (generateVoteHash 1 1 10 2) :=
  ⟨by decide, by decide, by decide⟩

/-- C8 amended. When the vault append collides on the voteHash the
submission performs no retry: the duplicate-key error propagates with the
state untouched; and in general the voter is never marked as having voted
unless the append succeeded, because every non-ok outcome leaves the state
exactly as it was. -/
theorem duplicate_hash_no_retry (secret : String) (st : ServerState)
    (v e cid now iv nonce : Nat) (he : e ≠ 0) (hc : cid ≠ 0)
    (r : VotingRecord) (hr : findRecord? st v e = some r)
    (hv : r.hasVoted = false)
    (hact : electionActive st e = true)
    (hcand : candidateValid st cid e = true)
    (hcol : (st.ballots.any fun o =>
        o.voteHash = generateVoteHash v e now nonce) = true) :
    submitVote secret st v e cid now iv nonce =
      (SubmitOutcome.duplicateHashError, st)
    ∧ ∀ (st2 : ServerState) (c : VoteCall),
        (submitCall secret st2 c).1.isOk = false →
        (submitCall secret st2 c).2 = st2 := by
  constructor
  · simp [submitVote, he, hc, hr, hv, submitAfterCheck, hact, hcand,
      saveBallot, hcol]
  · intro st2 c hnok
    rcases submitCall_shape secret st2 c with h | ⟨b, r0, h1, h2, _, _⟩
    · exact h
    · rw [h1] at hnok
      simp [SubmitOutcome.isOk] at hnok

/-- C8 amended witness: the no-retry theorem applied at the duplicate-hash
fixture. -/
theorem duplicate_hash_no_retry_witness :
    submitVote secretC stDup 1 1 1 10 100 1 =
      (SubmitOutcome.duplicateHashError, stDup)
    ∧ ((submitCall secretC stDup ⟨1, 1, 1, 10, 100, 1⟩).1.isOk = false →
        (submitCall secretC stDup ⟨1, 1, 1, 10, 100, 1⟩).2 = stDup) := by
  have h := duplicate_hash_no_retry secretC stDup 1 1 1 10 100 1 (by decide)
    (by decide) ⟨1, 1, false, none⟩ (by decide) (by decide) (by decide)
    (by decide) (by decide)
  exact ⟨h.1, h.2 stDup ⟨1, 1, 1, 10, 100, 1⟩⟩

/-! ## C9 : proclamation frame -/

/-- A found snapshot carries the searched election id. -/
theorem findSnapshot?_props (st : ServerState) (e : Nat) (s : ResultSnapshot)
    (h : findSnapshot? st e = some s) : s.electionId = e := by
  have := List.find?_some h
  simpa using this

/-- State shape of a successful proclamation: the proclaimed flag and
timestamp are set on the unique snapshot row of the election, everything
else untouched. -/
theorem proclaim_state_of_found (st : ServerState) (e inst now : Nat)
    (el : Election) (hinst : inst ≠ 0)
    (hel : st.elections.find? (fun x => x.id = e) = some el)
    (hmatch : el.institutionId = inst) (s0 : ResultSnapshot)
    (hs : findSnapshot? st e = some s0) :
    (proclaim st e inst now).2 =
      { st with electionResults := st.electionResults.map (fun s =>
          if s.electionId = e then
            { s with proclaimed := true, proclaimedAt := some now }
          else s) } := by
  unfold proclaim
  rw [if_neg hinst, hel]
  dsimp only
  rw [if_neg (fun hne => hne hmatch), hs]
  dsimp only
  split <;> rfl

/-- Effect of the proclamation update on the snapshot read. -/
theorem findSnapshot?_proclaimMap (st : ServerState) (e now : Nat) :
    findSnapshot? { st with electionResults := st.electionResults.map (fun s =>
        if s.electionId = e then
          { s with proclaimed := true, proclaimedAt := some now }
        else s) } e =
      (findSnapshot? st e).map (fun s =>
        if s.electionId = e then
          { s with proclaimed := true, proclaimedAt := some now }
        else s) := by
  unfold findSnapshot?
  exact find?_map_pres _ _ (fun a => by split <;> rfl) _

/-- C9. Proclamation frame: with no snapshot the route fails (404) and
changes nothing; with a snapshot it sets only the proclaimed flag and
proclaimedAt timestamp of that row — results payload, totalVotes, winnerId
and winnerName are carried over unchanged, other rows and all other tables
untouched — and re-proclaiming is idempotent: at the same timestamp the
state is a fixpoint, and after a second call at any timestamp the snapshot
is the same as after one call except for proclaimedAt. -/
theorem proclaim_frame (st : ServerState) (e inst now now2 : Nat)
    (el : Election) (hinst : inst ≠ 0)
    (hel : st.elections.find? (fun x => x.id = e) = some el)
    (hmatch : el.institutionId = inst) :
    (findSnapshot? st e = none →
      proclaim st e inst now = (ProclaimResponse.noResults, st))
    ∧ (∀ s0, findSnapshot? st e = some s0 →
        findSnapshot? (proclaim st e inst now).2 e =
          some { s0 with proclaimed := true, proclaimedAt := some now }
        ∧ (proclaim st e inst now).2.ballots = st.ballots
        ∧ (proclaim st e inst now).2.votingRecords = st.votingRecords
        ∧ (proclaim st e inst now).2.decisions = st.decisions
        ∧ (proclaim st e inst now).2.elections = st.elections
        ∧ (∀ s ∈ st.electionResults, s.electionId ≠ e →
            s ∈ (proclaim st e inst now).2.electionResults)
        ∧ (proclaim (proclaim st e inst now).2 e inst now).2 =
            (proclaim st e inst now).2
        ∧ findSnapshot? (proclaim (proclaim st e inst now).2 e inst now2).2 e =
            some { s0 with proclaimed := true, proclaimedAt := some now2 }) := by
  constructor
  · intro hnone
    unfold proclaim
    rw [if_neg hinst, hel]
    dsimp only
    rw [if_neg (fun hne => hne hmatch), hnone]
  · intro s0 hs
    have hside := proclaim_state_of_found st e inst now el hinst hel hmatch s0 hs
    have hprops := findSnapshot?_props st e s0 hs
    have hfind1 : findSnapshot? (proclaim st e inst now).2 e =
        some { s0 with proclaimed := true, proclaimedAt := some now } := by
      rw [hside, findSnapshot?_proclaimMap, hs]
      simp only [Option.map_some']
      rw [if_pos hprops]
    have hside2 := proclaim_state_of_found (proclaim st e inst now).2 e inst now2
      el hinst (by rw [hside]; exact hel) hmatch
      { s0 with proclaimed := true, proclaimedAt := some now } hfind1
    refine ⟨hfind1, by rw [hside], by rw [hside], by rw [hside], by rw [hside],
      ?_, ?_, ?_⟩
    · intro s hmem hne
      rw [hside]
      exact List.mem_map.mpr ⟨s, hmem, by rw [if_neg hne]⟩
    · have hside2same := proclaim_state_of_found (proclaim st e inst now).2 e
        inst now el hinst (by rw [hside]; exact hel) hmatch
        { s0 with proclaimed := true, proclaimedAt := some now } hfind1
      rw [hside2same, hside]
      simp only [List.map_map]
      congr 1
      apply List.map_congr_left
      intro a _
      by_cases ha : a.electionId = e
      · simp [Function.comp, ha]
      · simp [Function.comp, ha]
    · rw [hside2, findSnapshot?_proclaimMap, hfind1]
      simp only [Option.map_some']
      rw [if_pos hprops]

/-- C9 witness: the proclamation-frame theorem applied at the fixture with
an existing snapshot, instantiated at timestamps 99 and 100. -/
theorem proclaim_frame_witness :
    findSnapshot? (proclaim stProc 1 5 99).2 1 =
      some { snapUntied with proclaimed := true, proclaimedAt := some 99 }
    ∧ findSnapshot?
        (proclaim (proclaim stProc 1 5 99).2 1 5 100).2 1 =
      some { snapUntied with proclaimed := true, proclaimedAt := some 100 } := by
  have h := (proclaim_frame stProc 1 5 99 100 election1 (by decide) (by decide)
    (by decide)).2 snapUntied (by decide)
  exact ⟨h.1, h.2.2.2.2.2.2.2⟩

/-! ## C10 : persist failure during tally is swallowed -/

/-- C10. A failure of the snapshot persistence block during a tally is
swallowed: the route still answers success with the full results, tie
status and winner (the same response as when persistence succeeds), the
result store is left unchanged, and a subsequent results read then reports
no results available for the election whose tally just reported success. -/
theorem tally_persist_failure_swallowed (secret : String) (st : ServerState)
    (e : Nat) (hcons : countVotedLedger st e = (ballotsFor st e).length)
    (hnone : findSnapshot? st e = none) :
    (runTally secret st e false).1.isSuccess = true
    ∧ (runTally secret st e false).1 = (runTally secret st e true).1
    ∧ (runTally secret st e false).2 = st
    ∧ getResults (runTally secret st e false).2 e = ResultsResponse.notFound := by
  have h2 : (runTally secret st e false).2 = st := by
    simp only [runTally]
    rw [if_neg (fun hne => hne hcons)]
    rfl
  refine ⟨?_, ?_, h2, ?_⟩
  · simp only [runTally]
    rw [if_neg (fun hne => hne hcons)]
    rfl
  · simp only [runTally]
    by_cases hne2 : countVotedLedger st e ≠ (ballotsFor st e).length
    · rw [if_pos hne2, if_pos hne2]
    · rw [if_neg hne2, if_neg hne2]
  · rw [h2]
    simp [getResults, hnone]

/-- C10 witness: the swallowed-failure theorem applied at the X, X, Y
fixture, which has matching counts and no prior snapshot. -/
theorem tally_persist_failure_swallowed_witness :
    (runTally secretC stXXY 1 false).1.isSuccess = true
    ∧ (runTally secretC stXXY 1 false).1 = (runTally secretC stXXY 1 true).1
    ∧ (runTally secretC stXXY 1 false).2 = stXXY
    ∧ getResults (runTally secretC stXXY 1 false).2 1 =
        ResultsResponse.notFound :=
  tally_persist_failure_swallowed secretC stXXY 1 (by decide) (by decide)

end Votux
